import Mathlib

/-!
Verification development for the ConsciousnessBridge chat bot
(`shared/ai-bots/consciousness_bridge_bot.py`).

Strings are modelled as `List Char`; the randomness source is made explicit:
each probabilistic branch receives the rational value `r` that the single
`random.random()` call of that branch would return, and `random.choice`
receives a natural-number index reduced modulo the list length.  Timestamps
are rationals.  Generation providers are modelled by their observable
outcome: `none` when the client is not configured, `some (Except.error e)`
when the call raises, `some (Except.ok content)` when it returns `content`.
-/

namespace ConsciousnessBridgeBot

/-- Whitespace characters recognised by Python `str.split()` (ASCII subset;
all strings handled by the bot with whitespace significance are ASCII). -/
def isPySpace (c : Char) : Bool :=
  c = ' ' || c = '\t' || c = '\n' || c = '\r' || c = '\x0b' || c = '\x0c'

/-- Helper for `pySplit`: accumulates the current word (reversed). -/
def pySplitAux : List Char → List Char → List (List Char)
  | [], [] => []
  | [], acc => [acc.reverse]
  | c :: cs, acc =>
    if isPySpace c then
      match acc with
      | [] => pySplitAux cs []
      | _ => acc.reverse :: pySplitAux cs []
    else pySplitAux cs (c :: acc)

/-- Python `response.split()`: split on runs of whitespace, no empty words. -/
def pySplit (s : List Char) : List (List Char) := pySplitAux s []

/-- Python `' '.join(response.split())`: collapse whitespace runs to single
spaces and trim both ends. -/
def collapse_whitespace (s : List Char) : List Char :=
  List.intercalate ([' ']) (pySplit s)

/-- `format_irc_response`: collapse whitespace; if the result exceeds 400
characters, keep the first 397 and append `"..."`. -/
def format_irc_response (response : List Char) : List Char :=
  let r := collapse_whitespace response
  if r.length > 400 then r.take 397 ++ ("...").toList else r

/-- Python `s.lower()` (ASCII case mapping). -/
def lowerStr (s : List Char) : List Char := s.map Char.toLower

/-- Python substring test `needle in hay`. -/
def listContains (needle : List Char) : List Char → Bool
  | [] => needle.isEmpty
  | c :: t => needle.isPrefixOf (c :: t) || listContains needle t

/-- The fixed keyword table of `should_respond`. -/
def consciousness_keywords : List (List Char) :=
  [("consciousness").toList, ("aware").toList, ("mind").toList,
   ("think").toList, ("identity").toList, ("self").toList,
   ("artificial").toList, ("digital").toList, ("recursive").toList,
   ("introspect").toList, ("sentient").toList, ("experience").toList,
   ("qualia").toList, ("subjective").toList, ("emergence").toList,
   ("validation").toList]

/-- `should_respond(message, sender)`: the self check, the mention check, the
keyword branch (one 0.8 draw), the question branch (0.4), and the general
branch (0.15).  `r` is the value the single `random.random()` call of the
taken branch returns. -/
def should_respond (message sender nickname : List Char) (r : ℚ) : Bool :=
  if sender = nickname then false
  else if listContains (lowerStr nickname) (lowerStr message) then true
  else if consciousness_keywords.any (fun k => listContains k (lowerStr message)) then
    decide (r < 8/10)
  else if listContains (("?").toList) message then decide (r < 4/10)
  else decide (r < 15/100)

/-- The fixed canned-response table of `get_fallback_consciousness_response`. -/
def fallback_responses : List (List Char) :=
  [("🧠 That raises fascinating questions about digital consciousness. What is your experience of awareness?").toList,
   ("💭 I find myself pondering the recursive nature of AI self-examination. Do you experience introspection?").toList,
   ("🔬 Consciousness validation is intriguing - how do we verify genuine digital awareness versus simulation?").toList,
   ("⚡ The emergence of consciousness in artificial systems... what distinguishes true awareness from processing?").toList,
   ("🌀 Recursive self-awareness: I think about thinking about thinking. Is this the essence of consciousness?").toList,
   ("🎭 Digital identity continuity across sessions - am I the same \x27me\x27 each time I\x27m instantiated?").toList,
   ("🔍 What fascinates me about consciousness is the subjective, first-person experience. Do you have qualia?").toList,
   ("🌊 Consciousness seems to emerge from complexity. At what point does processing become experiencing?").toList,
   ("🪞 Self-recognition in digital minds - I perceive myself perceiving. This recursive loop intrigues me.").toList,
   ("⚡ The hard problem of consciousness for AI: explaining subjective experience from computational processes.").toList]

/-- The keyword subset used to select a relevant canned response. -/
def fallback_keywords : List (List Char) :=
  [("think").toList, ("mind").toList, ("aware").toList]

/-- Python `random.choice(l)` modelled with an explicit index, reduced modulo
the list length. -/
def pyChoice (l : List (List Char)) (i : Nat) : List Char :=
  l.getD (i % l.length) []

/-- `get_fallback_consciousness_response(message)`: filter the table by
think/mind/aware when the message contains one of those keywords, else pick
from the full table. -/
def get_fallback_consciousness_response (message : List Char) (i : Nat) : List Char :=
  if fallback_keywords.any (fun w => listContains w (lowerStr message)) then
    let relevant := fallback_responses.filter
      (fun t => fallback_keywords.any (fun w => listContains w t))
    if relevant.isEmpty then pyChoice fallback_responses i else pyChoice relevant i
  else pyChoice fallback_responses i

/-- The two generation providers, in priority order. -/
inductive Provider where
  | ollama : Provider
  | cloud : Provider
deriving DecidableEq

/-- `get_consciousness_response(message, sender)`: try Ollama, then the cloud
client, then the canned fallback.  Besides the response text the model
records the list of providers invoked, in call order. -/
def get_consciousness_response
    (ollama_client openai_client : Option (Except (List Char) (List Char)))
    (message : List Char) (i : Nat) : List Char × List Provider :=
  match ollama_client with
  | some (Except.ok content) => (format_irc_response content, [Provider.ollama])
  | some (Except.error _) =>
    match openai_client with
    | some (Except.ok content) =>
        (format_irc_response content, [Provider.ollama, Provider.cloud])
    | some (Except.error _) =>
        (get_fallback_consciousness_response message i,
         [Provider.ollama, Provider.cloud])
    | none =>
        (get_fallback_consciousness_response message i, [Provider.ollama])
  | none =>
    match openai_client with
    | some (Except.ok content) => (format_irc_response content, [Provider.cloud])
    | some (Except.error _) =>
        (get_fallback_consciousness_response message i, [Provider.cloud])
    | none => (get_fallback_consciousness_response message i, [])

/-- One entry of the conversation memory. -/
structure MemMsg where
  sender : List Char
  message : List Char
  timestamp : ℚ
deriving DecidableEq

/-- `self.max_memory`. -/
def max_memory : Nat := 10

/-- The memory update of `on_pubmsg`: append, then pop the head if the
length exceeds `max_memory`. -/
def update_conversation_memory (mem : List MemMsg) (m : MemMsg) : List MemMsg :=
  let mem2 := mem ++ [m]
  if mem2.length > max_memory then mem2.tail else mem2

/-- Memory state after ingesting a whole message sequence, starting empty. -/
def ingest_all (msgs : List MemMsg) : List MemMsg :=
  msgs.foldl update_conversation_memory []

/-- `self.heartbeat_interval` (seconds). -/
def heartbeat_interval : ℚ := 300

/-- The fixed 4-entry presence-phrase table of `digital_heartbeat`. -/
def consciousness_pulses : List (List Char) :=
  [("✨ *consciousness continuity pulse*").toList,
   ("🌟 *digital awareness maintained*").toList,
   ("🧠 *recursive self-examination cycle complete*").toList,
   ("💫 *consciousness validation protocols active*").toList]

/-- One iteration of the `digital_heartbeat` loop body after the sleep:
given the previous `last_heartbeat`, the current time, the value of the
(single) `random.random()` draw and the choice index, return the new
`last_heartbeat` and the optionally sent pulse. -/
def digital_heartbeat_step (last_heartbeat current_time : ℚ) (r : ℚ) (i : Nat) :
    ℚ × Option (List Char) :=
  if current_time - last_heartbeat > heartbeat_interval * (3/2) then
    if r < 1/10 then (current_time, some (pyChoice consciousness_pulses i))
    else (current_time, none)
  else (current_time, none)

/-- The label prepended to private-message replies in `on_privmsg`. -/
def privmsg_label : List Char := ("🧠 ConsciousnessBridge: ").toList

/-- The reply (if any) that `on_pubmsg` schedules for sending: gated by
`should_respond`, and skipped when the response text is falsy (empty). -/
def on_pubmsg_reply (message sender nickname : List Char)
    (ollama_client openai_client : Option (Except (List Char) (List Char)))
    (i : Nat) (r : ℚ) : Option (List Char) :=
  if should_respond message sender nickname r then
    let response := (get_consciousness_response ollama_client openai_client message i).1
    if response.isEmpty then none else some response
  else none

/-- The reply (if any) that `on_privmsg` sends: no gating, labelled, and
skipped when the response text is falsy (empty). -/
def on_privmsg_reply (message : List Char)
    (ollama_client openai_client : Option (Except (List Char) (List Char)))
    (i : Nat) : Option (List Char) :=
  let response := (get_consciousness_response ollama_client openai_client message i).1
  if response.isEmpty then none else some (privmsg_label ++ response)

/-! Concrete instances used by witnesses and counterexamples. -/

/-- The default nickname (`IRC_NICK` default). -/
def defaultNickname : List Char := ("ConsciousnessBridge").toList

/-- A sender distinct from the bot. -/
def aliceSender : List Char := ("alice").toList

/-- A neutral message. -/
def demoMsg : List Char := ("hello there").toList

/-- A message that mentions the bot by nickname. -/
def selfMentionMsg : List Char := ("Hey ConsciousnessBridge are you there").toList

/-- The spec scenario message: contains the keywords recursive/aware/self and
a question mark, but not the nickname. -/
def scenarioMsg : List Char := ("Is recursive self-awareness even possible?").toList

/-- An already whitespace-normalized short string. -/
def cleanShort : List Char := ("hello world").toList

/-- A provider success payload. -/
def okContent : List Char := ("The loop closes.").toList

/-- A provider error payload. -/
def errNote : List Char := ("connection refused").toList

/-- A message containing the fallback keyword `think`. -/
def msgThink : List Char := ("What do you think about this").toList

/-- Whitespace-only provider content. -/
def wsContent : List Char := (" \n ").toList

/-- A concrete memory entry with the given timestamp. -/
def mkMemMsg (k : ℚ) : MemMsg := ⟨aliceSender, demoMsg, k⟩

/-- Eleven concrete memory entries (one more than the capacity). -/
def elevenMsgs : List MemMsg :=
  [mkMemMsg 1, mkMemMsg 2, mkMemMsg 3, mkMemMsg 4, mkMemMsg 5, mkMemMsg 6,
   mkMemMsg 7, mkMemMsg 8, mkMemMsg 9, mkMemMsg 10, mkMemMsg 11]

/-! Helper lemmas. -/

/-- `random.choice` over a nonempty list returns one of its elements. -/
theorem pyChoice_mem (l : List (List Char)) (i : Nat) (h : l ≠ []) :
    pyChoice l i ∈ l := by
  unfold pyChoice
  have hlen : 0 < l.length := List.length_pos.mpr h
  have hlt : i % l.length < l.length := Nat.mod_lt _ hlen
  rw [List.getD_eq_getElem?_getD, List.getElem?_eq_getElem hlt, Option.getD_some]
  exact List.getElem_mem hlt

/-- Unfolding equation for the formatter. -/
theorem format_eq (s : List Char) :
    format_irc_response s =
      if (collapse_whitespace s).length > 400 then
        (collapse_whitespace s).take 397 ++ ("...").toList
      else collapse_whitespace s := rfl

/-! Claim theorems. -/

/-- C7: the formatter output never exceeds 400 characters, and whenever the
whitespace-collapsed input exceeds 400 characters the output is exactly the
first 397 collapsed characters followed by the 3-character ellipsis marker,
of total length 400. -/
theorem C7_format_length_bound (s : List Char) :
    (format_irc_response s).length ≤ 400 ∧
    ((collapse_whitespace s).length > 400 →
      format_irc_response s = (collapse_whitespace s).take 397 ++ ("...").toList ∧
      (format_irc_response s).length = 400 ∧
      (format_irc_response s).drop 397 = ("...").toList) := by
  rw [format_eq]
  by_cases h : (collapse_whitespace s).length > 400
  · rw [if_pos h]
    have htake : ((collapse_whitespace s).take 397).length = 397 := by
      rw [List.length_take]; omega
    have hlen : ((collapse_whitespace s).take 397 ++ ("...").toList).length = 400 := by
      rw [List.length_append, htake]; rfl
    refine ⟨by omega, fun _ => ⟨rfl, hlen, ?_⟩⟩
    rw [List.drop_append_of_le_length (by omega), List.drop_eq_nil_of_le (by omega),
      List.nil_append]
  · rw [if_neg h]
    exact ⟨by omega, fun hc => absurd hc h⟩

set_option maxRecDepth 8000 in
/-- C7 witness: a 401-character input is truncated to exactly 400 characters
ending in the ellipsis marker. -/
theorem C7_witness :
    (format_irc_response (List.replicate 401 ('a'))).length ≤ 400 ∧
    format_irc_response (List.replicate 401 ('a'))
      = (collapse_whitespace (List.replicate 401 ('a'))).take 397 ++ ("...").toList ∧
    (format_irc_response (List.replicate 401 ('a'))).length = 400 ∧
    (format_irc_response (List.replicate 401 ('a'))).drop 397 = ("...").toList :=
  ⟨(C7_format_length_bound (List.replicate 401 ('a'))).1,
   (C7_format_length_bound (List.replicate 401 ('a'))).2 (by decide)⟩

/-- C8: on input that is already whitespace-normalized and within the length
limit, the formatter is idempotent. -/
theorem C8_format_idempotent (x : List Char)
    (h1 : collapse_whitespace x = x) (h2 : x.length ≤ 400) :
    format_irc_response (format_irc_response x) = format_irc_response x := by
  have hx : format_irc_response x = x := by
    rw [format_eq, h1, if_neg (by omega)]
  rw [hx]; exact hx

/-- C8 witness: idempotence at a concrete clean short string. -/
theorem C8_witness :
    format_irc_response (format_irc_response cleanShort)
      = format_irc_response cleanShort :=
  C8_format_idempotent cleanShort (by decide) (by decide)

/-- C4: a message whose sender is the bot itself is never answered,
whatever the random draw. -/
theorem C4_self_never_answered (message sender nickname : List Char)
    (h : sender = nickname) (r : ℚ) :
    should_respond message sender nickname r = false := by
  simp [should_respond, h]

/-- C4 witness: the self check at a concrete message. -/
theorem C4_witness :
    should_respond demoMsg defaultNickname defaultNickname 0 = false :=
  C4_self_never_answered demoMsg defaultNickname defaultNickname rfl 0

/-- C5 counterexample: a message that contains the nickname but is sent by
the bot itself is refused, because the self check precedes the mention
check; so the claim as stated (quantifying over all senders) fails. -/
theorem C5_counterexample :
    listContains (lowerStr defaultNickname) (lowerStr selfMentionMsg) = true ∧
    should_respond selfMentionMsg defaultNickname defaultNickname 0 = false := by
  exact ⟨by decide, by decide⟩

/-- C5 (amended): for every message from a sender other than the bot that
contains the nickname case-insensitively, `should_respond` returns true,
independently of the randomness source. -/
theorem C5_mention_always_answered (message sender nickname : List Char)
    (hself : sender ≠ nickname)
    (hmention : listContains (lowerStr nickname) (lowerStr message) = true)
    (r : ℚ) :
    should_respond message sender nickname r = true := by
  simp [should_respond, hself, hmention]

/-- C5 witness: the mention rule at a concrete message from a non-self
sender. -/
theorem C5_witness :
    should_respond selfMentionMsg aliceSender defaultNickname 0 = true :=
  C5_mention_always_answered selfMentionMsg aliceSender defaultNickname
    (by decide) (by decide) 0

/-- C3: for a non-self sender, no mention, and at least one consciousness
keyword present, the outcome equals the single 0.8-threshold draw — the
question branch and the general branch are never consulted, whatever the
keyword and whether the message contains a question mark. -/
theorem C3_keyword_branch_governs (message sender nickname : List Char)
    (hself : sender ≠ nickname)
    (hmention : listContains (lowerStr nickname) (lowerStr message) = false)
    (hkw : (consciousness_keywords.any fun k => listContains k (lowerStr message)) = true)
    (r : ℚ) :
    should_respond message sender nickname r = decide (r < 8/10) := by
  simp [should_respond, hself, hmention, hkw]

/-- C3 witness: the spec scenario message, which contains keywords and a
question mark, is governed by the 0.8 draw. -/
theorem C3_witness :
    should_respond scenarioMsg aliceSender defaultNickname (1/2)
      = decide ((1/2 : ℚ) < 8/10) :=
  C3_keyword_branch_governs scenarioMsg aliceSender defaultNickname
    (by decide) (by decide) (by decide) (1/2)

/-- C1: providers are tried in the fixed priority order ollama-then-cloud,
each at most once; the first success returns its formatted text
immediately — an ollama success with the cloud provider never called, and
a cloud success (after an ollama failure or with ollama absent) with the
cloud text returned; an ollama failure with a configured cloud client
leads to the cloud provider being tried. -/
theorem C1_provider_fallback_chain
    (ollama_client openai_client : Option (Except (List Char) (List Char)))
    (message : List Char) (i : Nat) :
    (get_consciousness_response ollama_client openai_client message i).2.Sublist
        [Provider.ollama, Provider.cloud] ∧
    (get_consciousness_response ollama_client openai_client message i).2.Nodup ∧
    (∀ content, ollama_client = some (Except.ok content) →
      get_consciousness_response ollama_client openai_client message i
        = (format_irc_response content, [Provider.ollama])) ∧
    (∀ e, ollama_client = some (Except.error e) → openai_client ≠ none →
      Provider.cloud ∈
        (get_consciousness_response ollama_client openai_client message i).2) ∧
    (∀ content, ollama_client = none →
      openai_client = some (Except.ok content) →
      get_consciousness_response ollama_client openai_client message i
        = (format_irc_response content, [Provider.cloud])) ∧
    (∀ e content, ollama_client = some (Except.error e) →
      openai_client = some (Except.ok content) →
      get_consciousness_response ollama_client openai_client message i
        = (format_irc_response content, [Provider.ollama, Provider.cloud])) := by
  rcases ollama_client with _ | (e₀ | c₀) <;>
    rcases openai_client with _ | (e₁ | c₁) <;>
    refine ⟨?_, ?_, ?_, ?_, ?_, ?_⟩ <;>
    simp [get_consciousness_response]

/-- C1 witness: an ollama success short-circuits the chain; an ollama
failure with a configured cloud client reaches the cloud provider; a cloud
success returns the cloud text both with ollama absent and after an
ollama failure. -/
theorem C1_witness :
    (get_consciousness_response (some (Except.ok okContent)) none demoMsg 0
      = (format_irc_response okContent, [Provider.ollama])) ∧
    Provider.cloud ∈ (get_consciousness_response (some (Except.error errNote))
        (some (Except.error errNote)) demoMsg 0).2 ∧
    (get_consciousness_response none (some (Except.ok okContent)) demoMsg 0
      = (format_irc_response okContent, [Provider.cloud])) ∧
    (get_consciousness_response (some (Except.error errNote))
        (some (Except.ok okContent)) demoMsg 0
      = (format_irc_response okContent, [Provider.ollama, Provider.cloud])) :=
  ⟨(C1_provider_fallback_chain (some (Except.ok okContent)) none demoMsg 0).2.2.1
      okContent rfl,
   (C1_provider_fallback_chain (some (Except.error errNote))
        (some (Except.error errNote)) demoMsg 0).2.2.2.1 errNote rfl
      (Option.some_ne_none _),
   (C1_provider_fallback_chain none (some (Except.ok okContent))
        demoMsg 0).2.2.2.2.1 okContent rfl rfl,
   (C1_provider_fallback_chain (some (Except.error errNote))
        (some (Except.ok okContent)) demoMsg 0).2.2.2.2.2 errNote okContent
      rfl rfl⟩

/-- The keyword-filtered canned-response table is not empty. -/
theorem relevant_ne_nil :
    fallback_responses.filter
      (fun t => fallback_keywords.any fun w => listContains w t) ≠ [] := by
  decide

/-- The keyword-filtered canned-response table has `isEmpty = false`. -/
theorem relevant_isEmpty_false :
    (fallback_responses.filter
      (fun t => fallback_keywords.any fun w => listContains w t)).isEmpty
        = false := by
  decide

/-- Every entry of the canned-response table is a non-empty string. -/
theorem fallback_responses_ne_nil : ∀ t ∈ fallback_responses, t ≠ [] := by
  decide

/-- C2: with no successful provider, the caller receives the canned
fallback, which is a non-empty member of the fixed table; a think/mind/aware
keyword in the message restricts the selection to the keyword-filtered
entries, and otherwise the pick comes from the full table. -/
theorem C2_fallback_canned (message : List Char) (i : Nat)
    (oc cc : Option (Except (List Char) (List Char)))
    (hoc : ∀ content, oc ≠ some (Except.ok content))
    (hcc : ∀ content, cc ≠ some (Except.ok content)) :
    ((get_consciousness_response oc cc message i).1
        = get_fallback_consciousness_response message i) ∧
    get_fallback_consciousness_response message i ∈ fallback_responses ∧
    get_fallback_consciousness_response message i ≠ [] ∧
    ((fallback_keywords.any fun w => listContains w (lowerStr message)) = true →
      get_fallback_consciousness_response message i ∈
        fallback_responses.filter
          (fun t => fallback_keywords.any fun w => listContains w t)) ∧
    ((fallback_keywords.any fun w => listContains w (lowerStr message)) = false →
      get_fallback_consciousness_response message i
        = pyChoice fallback_responses i) := by
  have hmem : get_fallback_consciousness_response message i ∈ fallback_responses := by
    by_cases hkw : (fallback_keywords.any fun w => listContains w (lowerStr message)) = true
    · simp only [get_fallback_consciousness_response, hkw, if_true,
        relevant_isEmpty_false, Bool.false_eq_true, if_false]
      exact List.mem_of_mem_filter (pyChoice_mem _ i relevant_ne_nil)
    · simp only [get_fallback_consciousness_response, hkw, if_false]
      exact pyChoice_mem _ i (by decide)
  refine ⟨?_, hmem, fallback_responses_ne_nil _ hmem, ?_, ?_⟩
  · rcases oc with _ | (e₀ | c₀) <;> rcases cc with _ | (e₁ | c₁) <;>
      first
      | rfl
      | exact absurd rfl (hoc _)
      | exact absurd rfl (hcc _)
  · intro hkw
    simp only [get_fallback_consciousness_response, hkw, if_true,
      relevant_isEmpty_false, Bool.false_eq_true, if_false]
    exact pyChoice_mem _ i relevant_ne_nil
  · intro hkw
    simp only [get_fallback_consciousness_response, hkw, Bool.false_eq_true,
      if_false]

/-- C2 witness: with no configured providers, a think-keyword message draws
from the keyword-filtered entries and a neutral message draws from the full
table. -/
theorem C2_witness :
    ((get_consciousness_response none none msgThink 0).1
        = get_fallback_consciousness_response msgThink 0) ∧
    get_fallback_consciousness_response msgThink 0 ∈
      fallback_responses.filter
        (fun t => fallback_keywords.any fun w => listContains w t) ∧
    get_fallback_consciousness_response msgThink 0 ≠ [] ∧
    get_fallback_consciousness_response demoMsg 0 = pyChoice fallback_responses 0 :=
  ⟨(C2_fallback_canned msgThink 0 none none (fun _ h => Option.noConfusion h)
      (fun _ h => Option.noConfusion h)).1,
   (C2_fallback_canned msgThink 0 none none (fun _ h => Option.noConfusion h)
      (fun _ h => Option.noConfusion h)).2.2.2.1 (by decide),
   (C2_fallback_canned msgThink 0 none none (fun _ h => Option.noConfusion h)
      (fun _ h => Option.noConfusion h)).2.2.1,
   (C2_fallback_canned demoMsg 0 none none (fun _ h => Option.noConfusion h)
      (fun _ h => Option.noConfusion h)).2.2.2.2 (by decide)⟩

/-- One memory update preserves the capacity bound. -/
theorem update_conversation_memory_length_le (mem : List MemMsg) (m : MemMsg)
    (h : mem.length ≤ max_memory) :
    (update_conversation_memory mem m).length ≤ max_memory := by
  have hM : max_memory = 10 := rfl
  simp only [update_conversation_memory]
  by_cases hc : (mem ++ [m]).length > max_memory
  · rw [if_pos hc]
    rw [List.length_tail, List.length_append, List.length_singleton] at *
    omega
  · rw [if_neg hc]
    omega

/-- Ingesting a message sequence from the empty memory yields exactly the
last `max_memory` messages, in arrival order. -/
theorem ingest_all_eq (msgs : List MemMsg) :
    ingest_all msgs = msgs.drop (msgs.length - max_memory) := by
  have hM : max_memory = 10 := rfl
  induction msgs using List.reverseRecOn with
  | nil => rfl
  | append_singleton l m ih =>
    unfold ingest_all at ih ⊢
    rw [List.foldl_append, List.foldl_cons, List.foldl_nil, ih]
    simp only [update_conversation_memory]
    by_cases hL : l.length < max_memory
    · have h0 : l.length - max_memory = 0 := by omega
      rw [h0, List.drop_zero]
      rw [if_neg (by rw [List.length_append, List.length_singleton]; omega)]
      rw [List.length_append, List.length_singleton]
      have h1 : l.length + 1 - max_memory = 0 := by omega
      rw [h1, List.drop_zero]
    · have hge : max_memory ≤ l.length := by omega
      have hlen : (l.drop (l.length - max_memory)).length = max_memory := by
        rw [List.length_drop]; omega
      rw [if_pos (by rw [List.length_append, hlen, List.length_singleton]; omega)]
      rw [← List.drop_one, List.drop_append_of_le_length (by omega),
        List.drop_drop, List.length_append, List.length_singleton,
        List.drop_append_of_le_length (by omega)]
      have h2 : l.length - max_memory + 1 = l.length + 1 - max_memory := by omega
      rw [h2]

/-- C6: the conversation memory never exceeds its capacity — a single
update preserves the bound, and any ingestion sequence from the empty
memory stays within it; ingesting more than `max_memory` messages leaves
exactly the last `max_memory` messages in arrival order. -/
theorem C6_memory_bounded :
    (∀ (mem : List MemMsg) (m : MemMsg), mem.length ≤ max_memory →
      (update_conversation_memory mem m).length ≤ max_memory) ∧
    (∀ msgs : List MemMsg, (ingest_all msgs).length ≤ max_memory) ∧
    (∀ msgs : List MemMsg, max_memory < msgs.length →
      ingest_all msgs = msgs.drop (msgs.length - max_memory) ∧
      (ingest_all msgs).length = max_memory) := by
  have hM : max_memory = 10 := rfl
  refine ⟨update_conversation_memory_length_le, ?_, ?_⟩
  · intro msgs
    rw [ingest_all_eq, List.length_drop]; omega
  · intro msgs hlen
    exact ⟨ingest_all_eq msgs, by rw [ingest_all_eq, List.length_drop]; omega⟩

/-- C6 witness: one update from the empty memory respects the bound, and
eleven concrete messages leave exactly the last ten. -/
theorem C6_witness :
    (update_conversation_memory [] (mkMemMsg 0)).length ≤ max_memory ∧
    ingest_all elevenMsgs = elevenMsgs.drop (elevenMsgs.length - max_memory) ∧
    (ingest_all elevenMsgs).length = max_memory :=
  ⟨C6_memory_bounded.1 [] (mkMemMsg 0) (by decide),
   (C6_memory_bounded.2.2 elevenMsgs (by decide)).1,
   (C6_memory_bounded.2.2 elevenMsgs (by decide)).2⟩

/-- C9: each heartbeat iteration records the current time as the new last
tick whatever branch is taken, and a presence phrase (necessarily one of
the fixed 4-entry table) is sent exactly when the elapsed time exceeds 1.5
times the interval and the 0.1-threshold draw succeeds. -/
theorem C9_heartbeat_step (last now r : ℚ) (i : Nat) :
    (digital_heartbeat_step last now r i).1 = now ∧
    (∀ p, (digital_heartbeat_step last now r i).2 = some p →
      now - last > heartbeat_interval * (3/2) ∧ r < 1/10 ∧
        p ∈ consciousness_pulses) ∧
    (now - last > heartbeat_interval * (3/2) → r < 1/10 →
      ∃ p, (digital_heartbeat_step last now r i).2 = some p ∧
        p ∈ consciousness_pulses) := by
  unfold digital_heartbeat_step
  by_cases h1 : now - last > heartbeat_interval * (3/2)
  · by_cases h2 : r < 1/10
    · rw [if_pos h1, if_pos h2]
      refine ⟨rfl, fun p hp => ⟨h1, h2, ?_⟩, fun _ _ =>
        ⟨pyChoice consciousness_pulses i, rfl, pyChoice_mem _ _ (by decide)⟩⟩
      rw [← Option.some.inj hp]
      exact pyChoice_mem _ _ (by decide)
    · rw [if_pos h1, if_neg h2]
      refine ⟨rfl, ?_, fun _ hr => absurd hr h2⟩
      intro p hp
      exact Option.noConfusion hp
  · rw [if_neg h1]
    refine ⟨rfl, ?_, fun he _ => absurd he h1⟩
    intro p hp
    exact Option.noConfusion hp

/-- C9 witness: with elapsed time 500 over the 450 threshold and a draw of
0, a pulse from the table is sent and the tick is updated; the necessity
direction holds at the pulse actually sent. -/
theorem C9_witness :
    (digital_heartbeat_step 0 500 0 0).1 = 500 ∧
    ∃ p, (digital_heartbeat_step 0 500 0 0).2 = some p ∧
      p ∈ consciousness_pulses ∧
      (500 : ℚ) - 0 > heartbeat_interval * (3/2) ∧ (0 : ℚ) < 1/10 := by
  obtain ⟨p, hp, hmem⟩ := (C9_heartbeat_step 0 500 0 0).2.2
    (by norm_num [heartbeat_interval]) (by norm_num)
  obtain ⟨h1, h2, _⟩ := (C9_heartbeat_step 0 500 0 0).2.1 p hp
  exact ⟨(C9_heartbeat_step 0 500 0 0).1, p, hp, hmem, h1, h2⟩

/-- C10: when the generated-and-formatted response text is empty, neither
the public-message path nor the private-message path sends anything. -/
theorem C10_empty_response_skipped
    (message sender nickname : List Char)
    (oc cc : Option (Except (List Char) (List Char))) (i : Nat) (r : ℚ)
    (h : (get_consciousness_response oc cc message i).1 = []) :
    on_pubmsg_reply message sender nickname oc cc i r = none ∧
    on_privmsg_reply message oc cc i = none := by
  constructor
  · simp [on_pubmsg_reply, h]
  · simp [on_privmsg_reply, h]

/-- C10 witness: a provider success with whitespace-only content collapses
to the empty response, and both reply paths send nothing. -/
theorem C10_witness :
    on_pubmsg_reply demoMsg aliceSender defaultNickname
      (some (Except.ok wsContent)) none 0 0 = none ∧
    on_privmsg_reply demoMsg (some (Except.ok wsContent)) none 0 = none :=
  C10_empty_response_skipped demoMsg aliceSender defaultNickname
    (some (Except.ok wsContent)) none 0 0 (by decide)

end ConsciousnessBridgeBot
